import Mathlib

/-!
Verification of the meeting-bot recording core: a shallow embedding of
the session orchestrator (`recording-manager.ts`), the media-session
connection and recording pipeline (`MeetMediaAPIClient` in
`oauth-service.ts`), the REST-service meeting-code validator
(`GoogleMeetRESTService.isValidMeetingCode`), and the HTTP start route
(`app/api/start/route.ts`).

JavaScript `Map<string, V>` objects are embedded as association lists
(`List (String × V)`) with JS `Map` semantics: `set` replaces in place
when the key is present and appends otherwise, `delete` filters, and
iteration follows insertion order.  Timestamps (`Date.now()`) are passed
in explicitly as `Nat` arguments.  `Blob`s carry their bytes so that the
size of a concatenation is a provable fact rather than a definition.
-/

namespace MeetingBot

/-! ## Association lists with JS `Map` semantics -/

def alGet {α : Type} (m : List (String × α)) (k : String) : Option α :=
  (m.find? (fun p => p.1 == k)).map Prod.snd

def alContains {α : Type} (m : List (String × α)) (k : String) : Bool :=
  m.any (fun p => p.1 == k)

def alSet {α : Type} (m : List (String × α)) (k : String) (v : α) :
    List (String × α) :=
  if alContains m k then m.map (fun p => if p.1 == k then (k, v) else p)
  else m ++ [(k, v)]

def alDelete {α : Type} (m : List (String × α)) (k : String) :
    List (String × α) :=
  m.filter (fun p => !(p.1 == k))

/-! ## Blobs

A JS `Blob` is modelled by its byte contents plus the declared mime
type, so that `new Blob(parts, {type})` concatenation has provable size
semantics (`size` of the result is the sum of the part sizes). -/

structure Blob where
  bytes : List Nat
  mtype : String
deriving DecidableEq, Repr

def Blob.size (b : Blob) : Nat := b.bytes.length

/-- Embeds `new Blob(parts, { type := t })`. -/
def Blob.ofParts (parts : List Blob) (t : String) : Blob :=
  ⟨(parts.map Blob.bytes).flatten, t⟩

/-! ## Tracks, remote streams, the track registry

`MeetMediaStream` mirrors the interface of the same name in
`oauth-service.ts`: at most one audio and one video track per stream id.
The registry is the `remoteStreams` map of `MeetMediaAPIClient`. -/

inductive TrackKind
  | audio
  | video
deriving DecidableEq, Repr

structure Track where
  tid : Nat
  readyState : String
deriving DecidableEq, Repr

structure MeetMediaStream where
  audioTrack : Option Track := none
  videoTrack : Option Track := none
deriving DecidableEq, Repr

abbrev Registry := List (String × MeetMediaStream)

/-- A registry entry holds at least one track. -/
def MeetMediaStream.hasTrack (s : MeetMediaStream) : Bool :=
  s.audioTrack.isSome || s.videoTrack.isSome

/-! ## MeetMediaAPIClient state -/

structure PeerConnState where
  connectionState : String
deriving DecidableEq, Repr

structure DataChannelState where
  readyState : String
deriving DecidableEq, Repr

/-- The live `MediaRecorder`, when allocated: its `state`
(`"recording"` or `"inactive"`), the bytes captured since the last
`dataavailable` delivery, and the mime type it was created with. -/
structure RecorderState where
  rstate : String
  pending : List Nat
  mimeType : String
deriving DecidableEq, Repr

/-- The `RecordingData` record of `MeetMediaAPIClient`. -/
structure RecordingData where
  audioChunks : List Blob
  videoChunks : List Blob
  combinedChunks : List Blob
  startTime : Nat
  endTime : Option Nat
deriving DecidableEq, Repr

structure ParticipantInfo where
  pid : String
  displayName : String
  isPresenting : Bool
  audioEnabled : Bool
  videoEnabled : Bool
deriving DecidableEq, Repr

/-- The mutable fields of `MeetMediaAPIClient`.  A `MediaStream` value
(`recordingStream`) is embedded as the list of its tracks. -/
structure ClientState where
  peerConnection : Option PeerConnState
  dataChannel : Option DataChannelState
  mediaRecorder : Option RecorderState
  recordingData : RecordingData
  isConnected : Bool
  isRecording : Bool
  remoteStreams : Registry
  participants : List (String × ParticipantInfo)
  recordingStream : Option (List Track)
deriving DecidableEq, Repr

/-- The state right after the constructor runs (`recordingData` starts
with `startTime := Date.now()`; no transport allocated yet). -/
def initialClient (now : Nat) : ClientState :=
  { peerConnection := none
    dataChannel := none
    mediaRecorder := none
    recordingData := ⟨[], [], [], now, none⟩
    isConnected := false
    isRecording := false
    remoteStreams := []
    participants := []
    recordingStream := none }

/-! ## Track arrival and removal (`handleIncomingTrack`, `handleTrackEnded`) -/

/-- Model of `handleIncomingTrack`: a track delivered by the transport together
with the stream ids of `event.streams`.  A track without a stream is
ignored; otherwise the track is enrolled in the registry under the first
stream's id, and — when a recording is active — also added to the live
recording stream. -/
def handleIncomingTrack (c : ClientState) (streamIds : List String)
    (kind : TrackKind) (tr : Track) : ClientState :=
  match streamIds with
  | [] => c
  | sid :: _ =>
    let prev := (alGet c.remoteStreams sid).getD {}
    let updated :=
      match kind with
      | .audio => { prev with audioTrack := some tr }
      | .video => { prev with videoTrack := some tr }
    let c1 := { c with remoteStreams := alSet c.remoteStreams sid updated }
    if c1.isRecording then
      match c1.recordingStream with
      | some ts => { c1 with recordingStream := some (ts ++ [tr]) }
      | none => c1
    else c1

/-- Model of `handleTrackEnded`: remove the ended track's slot from its stream;
a stream left with no tracks is pruned from the registry. -/
def handleTrackEnded (c : ClientState) (sid : String) (kind : TrackKind) :
    ClientState :=
  match alGet c.remoteStreams sid with
  | none => c
  | some s =>
    let s1 :=
      match kind with
      | .audio => { s with audioTrack := none }
      | .video => { s with videoTrack := none }
    if s1.audioTrack.isNone && s1.videoTrack.isNone then
      { c with remoteStreams := alDelete c.remoteStreams sid }
    else
      { c with remoteStreams := alSet c.remoteStreams sid s1 }

/-- The asynchronous track events delivered to the connection. -/
inductive TrackEvent
  | arrived (streamIds : List String) (kind : TrackKind) (tr : Track)
  | ended (sid : String) (kind : TrackKind)
deriving DecidableEq, Repr

def applyTrackEvent (c : ClientState) : TrackEvent → ClientState
  | .arrived sids k tr => handleIncomingTrack c sids k tr
  | .ended sid k => handleTrackEnded c sid k

def applyTrackEvents (evs : List TrackEvent) (c : ClientState) : ClientState :=
  evs.foldl applyTrackEvent c

/-! ## Recording pipeline (`MeetMediaAPIClient` recording methods) -/

/-- Model of `getBestRecordingMimeType`: first supported entry of the fixed
preference list, with `"video/webm"` as the fallback.  Platform support
(`MediaRecorder.isTypeSupported`) is an oracle parameter. -/
def getBestRecordingMimeType (supported : String → Bool) : String :=
  let preferredTypes :=
    ["video/webm;codecs=vp9,opus", "video/webm;codecs=vp8,opus",
     "video/webm;codecs=h264,opus", "video/webm", "video/mp4"]
  match preferredTypes.find? supported with
  | some t => t
  | none => "video/webm"

/-- The tracks of one stream entry whose `readyState` is `"live"`,
audio first, matching the body of `updateRecordingStream`. -/
def streamLiveTracks (s : MeetMediaStream) : List Track :=
  (match s.audioTrack with
   | some t => if t.readyState = "live" then [t] else []
   | none => []) ++
  (match s.videoTrack with
   | some t => if t.readyState = "live" then [t] else []
   | none => [])

/-- All live tracks of the registry in iteration (insertion) order, the
combined `MediaStream` built by `updateRecordingStream`. -/
def liveTracksOf (m : Registry) : List Track :=
  (m.map (fun p => streamLiveTracks p.2)).flatten

/-- The chunk list after a `MediaRecorder.stop()` flush: the final
`dataavailable` event appends the pending buffer when it is non-empty
(the `ondataavailable` handler drops empty buffers). -/
def stopFlushChunks (rd : RecordingData) (r : RecorderState) : List Blob :=
  if r.pending.length > 0 then rd.combinedChunks ++ [⟨r.pending, r.mimeType⟩]
  else rd.combinedChunks

/-- Effect of `MediaRecorder.stop()` with the handlers installed by
`startMediaRecorder`: flush pending data into `combinedChunks`, then the
`onstop` handler sets `recordingData.endTime`.  `stop()` on an inactive
recorder is a no-op. -/
def flushRecorder (now : Nat) (c : ClientState) : ClientState :=
  match c.mediaRecorder with
  | none => c
  | some r =>
    if r.rstate = "recording" then
      { c with
        mediaRecorder := some { r with rstate := "inactive", pending := [] }
        recordingData :=
          { c.recordingData with
            combinedChunks := stopFlushChunks c.recordingData r
            endTime := some now } }
    else c

/-- Model of `startMediaRecorder`: fails when no recording stream is available,
otherwise allocates a fresh recorder (with `start(1000)` called) against
the current recording stream. -/
def startMediaRecorder (supported : String → Bool) (c : ClientState) :
    Except String ClientState :=
  match c.recordingStream with
  | none => .error "No recording stream available"
  | some _ =>
    .ok { c with
          mediaRecorder :=
            some ⟨"recording", [], getBestRecordingMimeType supported⟩ }

/-- Model of `updateRecordingStream`: recompute the combined stream from the live
tracks of all remote streams, and — when a capture is in progress —
restart the recorder against it.  The guard on the first line is the
`if (!this.isRecording) return` of the source.  The `startMediaRecorder`
error branch is unreachable here (the stream was just set); the source
leaves the rejection unhandled, which we embed as leaving the state. -/
def updateRecordingStream (supported : String → Bool) (now : Nat)
    (c : ClientState) : ClientState :=
  if c.isRecording = false then c
  else
    let c1 := { c with recordingStream := some (liveTracksOf c.remoteStreams) }
    match c1.mediaRecorder with
    | some r =>
      if r.rstate = "recording" then
        let c2 := flushRecorder now c1
        match startMediaRecorder supported c2 with
        | .ok c3 => c3
        | .error _ => c2
      else c1
    | none => c1

/-- Holds when `this.recordingStream` is missing or holds no tracks
(`!this.recordingStream || this.recordingStream.getTracks().length === 0`). -/
def recStreamEmpty (c : ClientState) : Bool :=
  match c.recordingStream with
  | none => true
  | some ts => ts.isEmpty

/-- Model of `MeetMediaAPIClient.startRecording`.  `regAtRetry` is the registry
contents after the fixed 2-second grace wait (track events may have
arrived during the wait); it is consulted by the single retry. -/
def clientStartRecording (supported : String → Bool) (now : Nat)
    (regAtRetry : Registry) (c : ClientState) : Except String ClientState :=
  if c.isConnected = false then
    .error "Not connected to meeting. Call connectToMeeting() first."
  else if c.isRecording then
    .error "Recording is already in progress."
  else
    let c1 := updateRecordingStream supported now c
    let c2 :=
      if recStreamEmpty c1 then
        updateRecordingStream supported now { c1 with remoteStreams := regAtRetry }
      else c1
    if recStreamEmpty c2 then
      .error "No media streams available for recording"
    else
      match startMediaRecorder supported c2 with
      | .error e => .error e
      | .ok c3 =>
        .ok { c3 with
              isRecording := true
              recordingData := { c3.recordingData with startTime := now } }

/-- Model of `MeetMediaAPIClient.stopRecording`: requires an active capture;
`stop()` flushes the final chunk, then the `onstop` handler installed
here combines `combinedChunks` into one Blob typed with the recorder's
mime type, clears `isRecording` and stamps `endTime`. -/
def clientStopRecording (now : Nat) (c : ClientState) :
    Except String (Blob × ClientState) :=
  if c.isRecording = false then .error "No recording in progress."
  else
    match c.mediaRecorder with
    | none => .error "No recording in progress."
    | some r =>
      let chunks := stopFlushChunks c.recordingData r
      .ok (Blob.ofParts chunks r.mimeType,
        { c with
          isRecording := false
          mediaRecorder := some { r with rstate := "inactive", pending := [] }
          recordingData :=
            { c.recordingData with
              combinedChunks := chunks
              endTime := some now } })

/-! ## Disconnect (`MeetMediaAPIClient.disconnect`) -/

/-- First step of `disconnect`: stop the recorder when a capture is
active (`if (this.isRecording && this.mediaRecorder)`). -/
def disconnectStopRecorder (now : Nat) (c : ClientState) : ClientState :=
  match c.mediaRecorder with
  | some _ =>
    if c.isRecording then { flushRecorder now c with isRecording := false }
    else c
  | none => c

/-- Step of `disconnect` that closes the data channel only when its ready state is
`"open"`; otherwise the field keeps its old (non-open) channel. -/
def closeDataChannel (c : ClientState) : ClientState :=
  match c.dataChannel with
  | some dc =>
    if dc.readyState = "open" then { c with dataChannel := none } else c
  | none => c

def closePeerConnection (c : ClientState) : ClientState :=
  match c.peerConnection with
  | some _ => { c with peerConnection := none }
  | none => c

/-- Model of `MeetMediaAPIClient.disconnect`: stop any active capture, close the
data channel and the peer connection, clear the registry, participant
table and recording stream, and drop the connected flag.  Nothing in
the body can throw, so the embedding is a total function. -/
def clientDisconnect (now : Nat) (c : ClientState) : ClientState :=
  let c3 := closePeerConnection (closeDataChannel (disconnectStopRecorder now c))
  { c3 with
    remoteStreams := []
    participants := []
    recordingStream := none
    isConnected := false }

/-- Model of `getConnectionState`: the transport's reported state, with the JS
`|| 'disconnected'` fall-through for a missing transport (and for the
falsy empty string). -/
def getConnectionState (c : ClientState) : String :=
  match c.peerConnection with
  | none => "disconnected"
  | some pc =>
    if pc.connectionState = "" then "disconnected" else pc.connectionState

/-! ## Session orchestrator (`GoogleMeetRecordingManager`) -/

/-- Record `RecordingChunk` of `recording-manager.ts`. -/
structure RecordingChunk where
  data : Blob
  timestamp : Nat
  ctype : String
  duration : Nat
deriving DecidableEq, Repr

/-- Record `RecordingSession` of `recording-manager.ts`; the two `Bool`s stand
for the interval handles stashed on the session object for cleanup. -/
structure RecordingSession where
  sid : String
  meetingCode : String
  startTime : Nat
  endTime : Option Nat
  chunks : List RecordingChunk
  mediaClient : ClientState
  status : String
  totalSize : Nat
  participants : List String
  chunkTimer : Bool
  participantTimer : Bool
deriving DecidableEq, Repr

/-- The `activeSessions` map, keyed by session id. -/
abbrev ManagerState := List (String × RecordingSession)

/-- Model of `cleanupSession`: looks the session up by id; when absent it
returns immediately.  When present it clears both interval timers,
disconnects the session's media client and removes the record — since
the record is deleted, the net effect on the table is removal. -/
def cleanupSession (sid : String) (m : ManagerState) : ManagerState :=
  match alGet m sid with
  | none => m
  | some _ => alDelete m sid

/-- Outcomes of the external collaborators consulted by
`startRecording`, plus the registry visible to the pipeline's
grace-wait retry and the platform's codec support. -/
structure StartEnv where
  spaceLookup : Except String String
  conference : Option String
  initErr : Option String
  connectErr : Option String
  transportState : String
  regAtRetry : Registry
  supported : String → Bool

/-- Model of `GoogleMeetRecordingManager.startRecording`.  The third component
of the result is the final state of the `MeetMediaAPIClient` the call
constructed (`none` when the failure happened before construction) — it
makes the fate of the partially-built connection observable.  Stages:
space lookup, active-conference wait, client construction,
`initializeConnection`, `connectToMeeting`, `waitForMediaStreams`
(succeeds only when the transport reports `"connected"`), client
`startRecording`, then the session record is created, inserted and the
two interval timers are started.  Every failure branch runs
`cleanupSession sessionId` before the error propagates. -/
def managerStartRecording (env : StartEnv) (now : Nat)
    (meetingCode sessionId : String) (m : ManagerState) :
    Except String String × ManagerState × Option ClientState :=
  match env.spaceLookup with
  | .error e => (.error e, cleanupSession sessionId m, none)
  | .ok _spaceId =>
    match env.conference with
    | none => (.error "No active conference found", cleanupSession sessionId m, none)
    | some _conf =>
      let c0 := initialClient now
      match env.initErr with
      | some e => (.error e, cleanupSession sessionId m, some c0)
      | none =>
        let c1 := { c0 with
                    peerConnection := some ⟨"new"⟩
                    dataChannel := some ⟨"connecting"⟩ }
        match env.connectErr with
        | some e => (.error e, cleanupSession sessionId m, some c1)
        | none =>
          let c2 := { c1 with
                      isConnected := true
                      peerConnection := some ⟨env.transportState⟩ }
          if env.transportState = "connected" then
            match clientStartRecording env.supported now env.regAtRetry c2 with
            | .error e => (.error e, cleanupSession sessionId m, some c2)
            | .ok c3 =>
              let s : RecordingSession :=
                { sid := sessionId
                  meetingCode := meetingCode
                  startTime := now
                  endTime := none
                  chunks := []
                  mediaClient := c3
                  status := "recording"
                  totalSize := 0
                  participants := []
                  chunkTimer := true
                  participantTimer := true }
              (.ok sessionId, alSet m sessionId s, some c3)
          else
            (.error "Timeout waiting for media streams",
             cleanupSession sessionId m, some c2)

/-- Model of `combineRecordingChunks`: `null` for an empty chunk list, otherwise
one `video/webm` Blob concatenating every collected chunk. -/
def combineRecordingChunks (s : RecordingSession) : Option Blob :=
  if s.chunks.isEmpty then none
  else some (Blob.ofParts (s.chunks.map RecordingChunk.data) "video/webm")

/-- Model of `GoogleMeetRecordingManager.stopRecording`.  The third component of
the result is the final state of the (now unregistered) session record,
making the stamped metadata observable.  On a finalization error the
record is retained with status `"error"`; on success the client is
disconnected, the session is stamped and removed, and
`combinedBlob || finalBlob` is returned.  The transient `"stopping"`
status set on entry is overwritten by `"error"` or `"stopped"` on every
exit, so it is elided. -/
def managerStopRecording (now : Nat) (sessionId : String) (m : ManagerState) :
    Except String Blob × ManagerState × Option RecordingSession :=
  match alGet m sessionId with
  | none => (.error "Recording session not found", m, none)
  | some s =>
    match clientStopRecording now s.mediaClient with
    | .error e =>
      let sErr := { s with status := "error" }
      (.error e, alSet m sessionId sErr, some sErr)
    | .ok (finalBlob, client1) =>
      let client2 := clientDisconnect now client1
      let combined := combineRecordingChunks s
      let s2 := { s with
                  mediaClient := client2
                  endTime := some now
                  status := "stopped" }
      let m2 := cleanupSession sessionId (alSet m sessionId s2)
      match combined with
      | some b => (.ok b, m2, some s2)
      | none => (.ok finalBlob, m2, some s2)

/-! ## Meeting-code validation (`GoogleMeetRESTService.isValidMeetingCode`) -/

/-- One character of the regex class `[a-z0-9]` under the `i` flag:
a letter of either case or a digit. -/
def isAlnumCI (c : Char) : Bool :=
  ('a' ≤ c && c ≤ 'z') || ('A' ≤ c && c ≤ 'Z') || ('0' ≤ c && c ≤ '9')

/-- The anchored regex `/^[a-z0-9]{3}-[a-z0-9]{4}-[a-z0-9]{3}$/i`
compiled onto the character list: exactly twelve characters, hyphens at
positions 3 and 8, class characters elsewhere. -/
def isValidMeetingCode : List Char → Bool
  | [c0, c1, c2, d0, c3, c4, c5, c6, d1, c7, c8, c9] =>
    isAlnumCI c0 && isAlnumCI c1 && isAlnumCI c2 && (d0 == '-') &&
    isAlnumCI c3 && isAlnumCI c4 && isAlnumCI c5 && isAlnumCI c6 &&
    (d1 == '-') && isAlnumCI c7 && isAlnumCI c8 && isAlnumCI c9
  | _ => false

/-- One character of `[a-z0-9]` without the `i` flag, following the
spec's words: lowercase letter or digit. -/
def isLowerAlnum (c : Char) : Bool :=
  ('a' ≤ c && c ≤ 'z') || ('0' ≤ c && c ≤ '9')

/-- The claim's validation predicate, written from the spec's words
(three lowercase-alphanumeric groups of lengths 3, 4, 3 separated by
hyphens), for comparison with `isValidMeetingCode`. -/
def specLowercaseMeetingCode : List Char → Bool
  | [c0, c1, c2, d0, c3, c4, c5, c6, d1, c7, c8, c9] =>
    isLowerAlnum c0 && isLowerAlnum c1 && isLowerAlnum c2 && (d0 == '-') &&
    isLowerAlnum c3 && isLowerAlnum c4 && isLowerAlnum c5 && isLowerAlnum c6 &&
    (d1 == '-') && isLowerAlnum c7 && isLowerAlnum c8 && isLowerAlnum c9
  | _ => false

/-- Reads "three groups of lengths 3, 4, 3 whose characters satisfy `alnum`,
separated by hyphens" — the group-structured reading of the claim,
parameterised by the character class. -/
def meetingCodeShape (alnum : Char → Bool) (s : List Char) : Prop :=
  ∃ g1 g2 g3 : List Char,
    g1.length = 3 ∧ g2.length = 4 ∧ g3.length = 3 ∧
    (∀ c ∈ g1, alnum c = true) ∧ (∀ c ∈ g2, alnum c = true) ∧
    (∀ c ∈ g3, alnum c = true) ∧
    s = g1 ++ '-' :: g2 ++ '-' :: g3

/-! ## Session id generation (`generateSessionId`) -/

/-- Template `` `session_${Date.now()}_${Math.random().toString(36).substr(2, 9)}` ``:
the decimal rendering of the clock and the random base-36 suffix are
passed in as the character lists the template interpolates. -/
def generateSessionId (nowStr rand : List Char) : List Char :=
  "session_".data ++ nowStr ++ '_' :: rand

/-- The id handed out by the `i`-th `startRecording` invocation, with
`env` giving the clock reading and the `Math.random()` suffix each
invocation observes. -/
def sessionIdAt (env : Nat → List Char × List Char) (i : Nat) : List Char :=
  generateSessionId (env i).1 (env i).2

/-! ## The HTTP start route (`app/api/start/route.ts` POST) -/

/-- One entry of the route's module-level `activeRecordings` map. -/
structure RouteSession where
  sessionId : String
  meetingCode : String
  spaceId : String
  startTime : Nat
  status : String
deriving DecidableEq, Repr

abbrev RouteTable := List (String × RouteSession)

inductive RouteResult
  | badRequest (msg : String)
  | conflict
  | unauthorized
  | serverErr (msg : String)
  | started (sessionId : String)
deriving DecidableEq, Repr

/-- Outcomes of the collaborators the route consults after validation:
OAuth token acquisition, the configured project number, the space
lookup, and the recording manager's `startRecording`. -/
structure RouteEnv where
  accessToken : Option String
  cloudProjectNumber : Option String
  spaceLookup : Except String String
  startResult : Except String String
deriving Repr

/-- The POST handler of the start route, up to the mutations of
`activeRecordings` (keyed by meeting code): missing/invalid code → 400;
duplicate meeting code → 409 with the table untouched; missing token →
401; missing project number → 500; space-lookup failure → 500 via the
outer catch, still before any insertion; then the entry is inserted
with status `"starting"` and the manager is started — on its failure
the entry is kept with status `"error"` (deleted only by a 60-second
delayed timer), on success it is updated to `"recording"`. -/
def routeStartPOST (env : RouteEnv) (now : Nat) (meetingCode : Option String)
    (t : RouteTable) : RouteResult × RouteTable :=
  match meetingCode with
  | none => (.badRequest "Meeting code is required", t)
  | some code =>
    if isValidMeetingCode code.data = false then
      (.badRequest "Invalid meeting code format", t)
    else if alContains t code then (.conflict, t)
    else
      match env.accessToken with
      | none => (.unauthorized, t)
      | some _tok =>
        match env.cloudProjectNumber with
        | none => (.serverErr "Cloud project number not configured", t)
        | some _proj =>
          match env.spaceLookup with
          | .error e => (.serverErr e, t)
          | .ok spaceId =>
            let sData : RouteSession :=
              { sessionId := ""
                meetingCode := code
                spaceId := spaceId
                startTime := now
                status := "starting" }
            let t1 := alSet t code sData
            match env.startResult with
            | .error e =>
              (.serverErr e, alSet t1 code { sData with status := "error" })
            | .ok sid =>
              (.started sid,
               alSet t1 code { sData with sessionId := sid, status := "recording" })

/-! # Lemmas -/

/-! ## Association-list lemmas -/

theorem mem_alSet {α : Type} {m : List (String × α)} {k : String} {v : α}
    {p : String × α} (h : p ∈ alSet m k v) : p ∈ m ∨ p = (k, v) := by
  unfold alSet at h
  split at h
  · rcases List.mem_map.mp h with ⟨q, hq, hqe⟩
    by_cases hk : q.1 == k
    · right
      simp only [hk, if_pos] at hqe
      exact hqe.symm
    · left
      simp only [hk, Bool.false_eq_true, if_neg, if_false] at hqe
      exact hqe ▸ hq
  · rcases List.mem_append.mp h with h' | h'
    · exact Or.inl h'
    · exact Or.inr (List.mem_singleton.mp h')

theorem mem_alDelete {α : Type} {m : List (String × α)} {k : String}
    {p : String × α} (h : p ∈ alDelete m k) : p ∈ m :=
  List.mem_of_mem_filter h

theorem alSet_mem_self {α : Type} (m : List (String × α)) (k : String) (v : α) :
    (k, v) ∈ alSet m k v := by
  unfold alSet
  split
  · next h =>
    rcases List.any_eq_true.mp h with ⟨q, hq, hqk⟩
    exact List.mem_map.mpr ⟨q, hq, by simp [hqk]⟩
  · exact List.mem_append_right _ (List.mem_singleton.mpr rfl)

theorem alDelete_of_not_contains {α : Type} {m : List (String × α)} {k : String}
    (h : alContains m k = false) : alDelete m k = m := by
  unfold alContains at h
  unfold alDelete
  apply List.filter_eq_self.mpr
  intro p hp
  have := List.any_eq_false.mp h p hp
  simpa using this

theorem alGet_eq_none_of_not_contains {α : Type} {m : List (String × α)}
    {k : String} (h : alContains m k = false) : alGet m k = none := by
  unfold alContains at h
  unfold alGet
  have hf : m.find? (fun p => p.1 == k) = none :=
    List.find?_eq_none.mpr (fun p hp => by simpa using List.any_eq_false.mp h p hp)
  rw [hf]
  rfl

theorem alContains_of_alGet_some {α : Type} {m : List (String × α)} {k : String}
    {v : α} (h : alGet m k = some v) : alContains m k = true := by
  unfold alGet at h
  rcases Option.map_eq_some'.mp h with ⟨p, hp, _⟩
  have hm := List.mem_of_find?_eq_some hp
  have hk := List.find?_some hp
  exact List.any_eq_true.mpr ⟨p, hm, hk⟩

theorem alSet_keys_of_not_contains {α : Type} {m : List (String × α)}
    {k : String} (v : α) (h : alContains m k = false) :
    (alSet m k v).map Prod.fst = m.map Prod.fst ++ [k] := by
  unfold alSet
  rw [if_neg (by simp [h])]
  simp

theorem alSet_keys_of_contains {α : Type} {m : List (String × α)} {k : String}
    (v : α) (h : alContains m k = true) :
    (alSet m k v).map Prod.fst = m.map Prod.fst := by
  unfold alSet
  rw [if_pos h, List.map_map]
  apply List.map_congr_left
  intro p _
  by_cases hk : p.1 = k
  · simp [hk]
  · simp [hk]

theorem alContains_alSet_self {α : Type} (m : List (String × α)) (k : String)
    (v : α) : alContains (alSet m k v) k = true :=
  List.any_eq_true.mpr ⟨(k, v), alSet_mem_self m k v, by simp⟩

theorem Blob.size_ofParts (parts : List Blob) (t : String) :
    (Blob.ofParts parts t).size = (parts.map Blob.size).sum := by
  simp only [Blob.ofParts, Blob.size, List.length_flatten, List.map_map]
  exact congrArg List.sum (List.map_congr_left (fun b _ => rfl))

/-! ## Projection lemmas for the disconnect pipeline -/

@[simp] theorem flushRecorder_dataChannel (now : Nat) (c : ClientState) :
    (flushRecorder now c).dataChannel = c.dataChannel := by
  unfold flushRecorder
  cases h : c.mediaRecorder
  · rfl
  · dsimp only
    split <;> rfl

@[simp] theorem flushRecorder_peerConnection (now : Nat) (c : ClientState) :
    (flushRecorder now c).peerConnection = c.peerConnection := by
  unfold flushRecorder
  cases h : c.mediaRecorder
  · rfl
  · dsimp only
    split <;> rfl

@[simp] theorem flushRecorder_isConnected (now : Nat) (c : ClientState) :
    (flushRecorder now c).isConnected = c.isConnected := by
  unfold flushRecorder
  cases h : c.mediaRecorder
  · rfl
  · dsimp only
    split <;> rfl

@[simp] theorem disconnectStopRecorder_dataChannel (now : Nat) (c : ClientState) :
    (disconnectStopRecorder now c).dataChannel = c.dataChannel := by
  unfold disconnectStopRecorder
  cases h : c.mediaRecorder
  · rfl
  · dsimp only
    split <;> simp

@[simp] theorem disconnectStopRecorder_peerConnection (now : Nat) (c : ClientState) :
    (disconnectStopRecorder now c).peerConnection = c.peerConnection := by
  unfold disconnectStopRecorder
  cases h : c.mediaRecorder
  · rfl
  · dsimp only
    split <;> simp

@[simp] theorem closeDataChannel_peerConnection (c : ClientState) :
    (closeDataChannel c).peerConnection = c.peerConnection := by
  unfold closeDataChannel
  cases h : c.dataChannel
  · rfl
  · dsimp only
    split <;> rfl

@[simp] theorem closeDataChannel_mediaRecorder (c : ClientState) :
    (closeDataChannel c).mediaRecorder = c.mediaRecorder := by
  unfold closeDataChannel
  cases h : c.dataChannel
  · rfl
  · dsimp only
    split <;> rfl

@[simp] theorem closeDataChannel_isRecording (c : ClientState) :
    (closeDataChannel c).isRecording = c.isRecording := by
  unfold closeDataChannel
  cases h : c.dataChannel
  · rfl
  · dsimp only
    split <;> rfl

@[simp] theorem closePeerConnection_peerConnection (c : ClientState) :
    (closePeerConnection c).peerConnection = none := by
  unfold closePeerConnection
  cases h : c.peerConnection
  · exact h
  · rfl

@[simp] theorem closePeerConnection_dataChannel (c : ClientState) :
    (closePeerConnection c).dataChannel = c.dataChannel := by
  unfold closePeerConnection
  cases h : c.peerConnection
  · rfl
  · rfl

@[simp] theorem closePeerConnection_mediaRecorder (c : ClientState) :
    (closePeerConnection c).mediaRecorder = c.mediaRecorder := by
  unfold closePeerConnection
  cases h : c.peerConnection
  · rfl
  · rfl

@[simp] theorem closePeerConnection_isRecording (c : ClientState) :
    (closePeerConnection c).isRecording = c.isRecording := by
  unfold closePeerConnection
  cases h : c.peerConnection
  · rfl
  · rfl

@[simp] theorem clientDisconnect_remoteStreams (now : Nat) (c : ClientState) :
    (clientDisconnect now c).remoteStreams = [] := rfl

@[simp] theorem clientDisconnect_participants (now : Nat) (c : ClientState) :
    (clientDisconnect now c).participants = [] := rfl

@[simp] theorem clientDisconnect_recordingStream (now : Nat) (c : ClientState) :
    (clientDisconnect now c).recordingStream = none := rfl

@[simp] theorem clientDisconnect_isConnected (now : Nat) (c : ClientState) :
    (clientDisconnect now c).isConnected = false := rfl

@[simp] theorem clientDisconnect_peerConnection (now : Nat) (c : ClientState) :
    (clientDisconnect now c).peerConnection = none := by
  simp [clientDisconnect]

/-! ## Disconnect acts as the identity on already-torn-down state -/

theorem disconnectStopRecorder_unrecorded (now : Nat) (c : ClientState)
    (h : c.isRecording = false ∨ c.mediaRecorder = none) :
    disconnectStopRecorder now c = c := by
  unfold disconnectStopRecorder
  cases hm : c.mediaRecorder
  · rfl
  · rcases h with h | h
    · simp [h]
    · rw [h] at hm
      cases hm

theorem disconnectStopRecorder_spent (now : Nat) (c : ClientState) :
    (disconnectStopRecorder now c).isRecording = false ∨
      (disconnectStopRecorder now c).mediaRecorder = none := by
  unfold disconnectStopRecorder
  cases hm : c.mediaRecorder
  · right
    exact hm
  · by_cases hr : c.isRecording
    · left
      simp [hr]
    · left
      simp [hr]

theorem closeDataChannel_unopened (c : ClientState)
    (h : ∀ dc, c.dataChannel = some dc → dc.readyState ≠ "open") :
    closeDataChannel c = c := by
  unfold closeDataChannel
  cases hm : c.dataChannel
  · rfl
  · next dc => simp [h dc hm]

theorem closeDataChannel_leaves_unopened (c : ClientState) :
    ∀ dc, (closeDataChannel c).dataChannel = some dc → dc.readyState ≠ "open" := by
  unfold closeDataChannel
  cases hm : c.dataChannel
  · intro dc h
    rw [hm] at h
    cases h
  · next dc0 =>
    by_cases ho : dc0.readyState = "open"
    · simp [ho]
    · intro dc h
      simp [ho] at h
      rw [hm] at h
      cases h
      exact ho

theorem closePeerConnection_closed (c : ClientState)
    (h : c.peerConnection = none) : closePeerConnection c = c := by
  unfold closePeerConnection
  cases hm : c.peerConnection
  · rfl
  · rw [h] at hm
    cases hm

theorem finalClear_self (c : ClientState) (h1 : c.remoteStreams = [])
    (h2 : c.participants = []) (h3 : c.recordingStream = none)
    (h4 : c.isConnected = false) :
    { c with
      remoteStreams := []
      participants := []
      recordingStream := none
      isConnected := false } = c := by
  obtain ⟨pc, dc, mr, rd, ic, ir, rs, ps, rstr⟩ := c
  dsimp only at h1 h2 h3 h4
  subst h1 h2 h3 h4
  rfl

theorem clientDisconnect_self (n : Nat) (c : ClientState)
    (h0 : disconnectStopRecorder n c = c)
    (h1 : closeDataChannel c = c)
    (h2 : closePeerConnection c = c)
    (h3 : c.remoteStreams = []) (h4 : c.participants = [])
    (h5 : c.recordingStream = none) (h6 : c.isConnected = false) :
    clientDisconnect n c = c := by
  unfold clientDisconnect
  rw [h0, h1, h2]
  exact finalClear_self c h3 h4 h5 h6

/-! # Claim theorems -/

/-- C6: calling `disconnect()` a second time — in particular on an
already-closed connection — changes nothing: the state after two calls
equals the state after one, and one call already leaves the
remote-stream registry empty, the participant table empty and the
transport closed.  The embedding of `disconnect` is a total function,
so no error is raised on either call. -/
theorem disconnect_idempotent :
    ∀ (n1 n2 : Nat) (c : ClientState),
      clientDisconnect n2 (clientDisconnect n1 c) = clientDisconnect n1 c ∧
      (clientDisconnect n1 c).remoteStreams = [] ∧
      (clientDisconnect n1 c).participants = [] ∧
      (clientDisconnect n1 c).peerConnection = none := by
  intro n1 n2 c
  refine ⟨?_, rfl, rfl, clientDisconnect_peerConnection n1 c⟩
  have hrec : (clientDisconnect n1 c).isRecording = false ∨
      (clientDisconnect n1 c).mediaRecorder = none := by
    rcases disconnectStopRecorder_spent n1 c with h | h
    · left
      simp [clientDisconnect, h]
    · right
      simp [clientDisconnect, h]
  have hdc : ∀ dc, (clientDisconnect n1 c).dataChannel = some dc →
      dc.readyState ≠ "open" := by
    intro dc h
    have hh : (closeDataChannel (disconnectStopRecorder n1 c)).dataChannel = some dc := by
      simpa [clientDisconnect] using h
    exact closeDataChannel_leaves_unopened (disconnectStopRecorder n1 c) dc hh
  exact clientDisconnect_self n2 (clientDisconnect n1 c)
    (disconnectStopRecorder_unrecorded n2 _ hrec)
    (closeDataChannel_unopened _ hdc)
    (closePeerConnection_closed _ (clientDisconnect_peerConnection n1 c))
    rfl rfl rfl rfl

/-- C10: `getConnectionState()` returns `"disconnected"` both before
`initialize()` has allocated a transport (the constructor leaves
`peerConnection` null) and after `disconnect()` has closed it — it
never fails. -/
theorem getConnectionState_defaults :
    (∀ now : Nat, getConnectionState (initialClient now) = "disconnected") ∧
    (∀ (now : Nat) (c : ClientState),
      getConnectionState (clientDisconnect now c) = "disconnected") := by
  constructor
  · intro now
    rfl
  · intro now c
    unfold getConnectionState
    rw [clientDisconnect_peerConnection]

theorem startMediaRecorder_recordingData (supported : String → Bool)
    (c c' : ClientState) (h : startMediaRecorder supported c = .ok c') :
    c'.recordingData = c.recordingData := by
  unfold startMediaRecorder at h
  cases hs : c.recordingStream <;> rw [hs] at h
  · cases h
  · cases h
    rfl

theorem flushRecorder_chunks_extend (now : Nat) (c : ClientState) :
    c.recordingData.combinedChunks <+:
      (flushRecorder now c).recordingData.combinedChunks := by
  unfold flushRecorder
  cases hm : c.mediaRecorder
  · exact List.prefix_refl _
  · dsimp only
    split
    · dsimp only
      unfold stopFlushChunks
      split
      · exact List.prefix_append _ _
      · exact List.prefix_refl _
    · exact List.prefix_refl _

/-- C7: when the pipeline recomputes the recording stream (as it does
when the live track set changes) and restarts capture, every chunk
already accumulated stays in the in-progress artifact: the old
`combinedChunks` list is a prefix of the new one, so a restart can only
append newly produced chunks. -/
theorem updateRecordingStream_keeps_chunks :
    ∀ (supported : String → Bool) (now : Nat) (c : ClientState),
      c.recordingData.combinedChunks <+:
        (updateRecordingStream supported now c).recordingData.combinedChunks := by
  intro sup now c
  unfold updateRecordingStream
  split
  · exact List.prefix_refl _
  · dsimp only
    split
    · split
      · split
        · next c3 heq =>
          rw [startMediaRecorder_recordingData sup _ c3 heq]
          exact flushRecorder_chunks_extend now
            { c with recordingStream := some (liveTracksOf c.remoteStreams) }
        · exact flushRecorder_chunks_extend now
            { c with recordingStream := some (liveTracksOf c.remoteStreams) }
      · exact List.prefix_refl _
    · exact List.prefix_refl _

theorem updateRecordingStream_noop (supported : String → Bool) (now : Nat)
    (c : ClientState) (h : c.isRecording = false) :
    updateRecordingStream supported now c = c := by
  unfold updateRecordingStream
  simp [h]

/-- C8 (code bug): `startRecording` can never proceed, whether or not a
track becomes available during the grace wait.  `updateRecordingStream`
begins with `if (!this.isRecording) return`, and `isRecording` is still
false for the whole of `startRecording`, so neither the initial query
nor the retry after the grace wait can populate `recordingStream`: for
every registry contents at the retry — including one holding a live
track — the call fails with the no-media error, contradicting the
claimed "recording proceeds with no error". -/
theorem startRecording_always_fails_no_media :
    ∀ (supported : String → Bool) (now : Nat) (regAtRetry : Registry)
      (c : ClientState),
      c.isConnected = true → c.isRecording = false → c.recordingStream = none →
      clientStartRecording supported now regAtRetry c =
        .error "No media streams available for recording" := by
  intro sup now reg c hc hr hs
  obtain ⟨pc, dc, mr, rd, ic, ir, rs, ps, rstr⟩ := c
  dsimp only at hc hr hs
  subst hc hr hs
  simp [clientStartRecording, updateRecordingStream, recStreamEmpty]

/-- Witness for C8: a connected, idle client (the post-`connect` state)
with a live audio track available at the retry still gets the no-media
error. -/
theorem startRecording_always_fails_no_media_witness :
    clientStartRecording (fun _ => true) 5
      [("s1", { audioTrack := some ⟨1, "live"⟩, videoTrack := none })]
      { initialClient 0 with isConnected := true } =
      .error "No media streams available for recording" :=
  startRecording_always_fails_no_media (fun _ => true) 5
    [("s1", { audioTrack := some ⟨1, "live"⟩, videoTrack := none })]
    { initialClient 0 with isConnected := true } rfl rfl rfl

/-! ## The track-registry invariant (C5) -/

theorem handleIncomingTrack_remoteStreams (c : ClientState) (sid : String)
    (rest : List String) (k : TrackKind) (tr : Track) :
    (handleIncomingTrack c (sid :: rest) k tr).remoteStreams =
      alSet c.remoteStreams sid
        (match k with
         | .audio => { (alGet c.remoteStreams sid).getD {} with audioTrack := some tr }
         | .video => { (alGet c.remoteStreams sid).getD {} with videoTrack := some tr }) := by
  unfold handleIncomingTrack
  dsimp only
  split
  · split <;> rfl
  · rfl

theorem handleIncomingTrack_inv (c : ClientState) (sids : List String)
    (k : TrackKind) (tr : Track)
    (h : ∀ p ∈ c.remoteStreams, p.2.hasTrack = true) :
    ∀ p ∈ (handleIncomingTrack c sids k tr).remoteStreams,
      p.2.hasTrack = true := by
  cases sids with
  | nil => exact h
  | cons sid rest =>
    intro p hp
    rw [handleIncomingTrack_remoteStreams] at hp
    rcases mem_alSet hp with hmem | heq
    · exact h p hmem
    · subst heq
      cases k <;> simp [MeetMediaStream.hasTrack]

theorem handleTrackEnded_inv (c : ClientState) (sid : String) (k : TrackKind)
    (h : ∀ p ∈ c.remoteStreams, p.2.hasTrack = true) :
    ∀ p ∈ (handleTrackEnded c sid k).remoteStreams, p.2.hasTrack = true := by
  unfold handleTrackEnded
  cases hg : alGet c.remoteStreams sid
  · exact h
  · next s =>
    dsimp only
    split
    · intro p hp
      exact h p (mem_alDelete hp)
    · next hcond =>
      intro p hp
      rcases mem_alSet hp with hmem | heq
      · exact h p hmem
      · subst heq
        dsimp only
        cases k <;>
          · unfold MeetMediaStream.hasTrack
            cases ha : s.audioTrack <;> cases hb : s.videoTrack <;>
              simp_all [MeetMediaStream.hasTrack]

theorem applyTrackEvent_inv (c : ClientState) (e : TrackEvent)
    (h : ∀ p ∈ c.remoteStreams, p.2.hasTrack = true) :
    ∀ p ∈ (applyTrackEvent c e).remoteStreams, p.2.hasTrack = true := by
  cases e with
  | arrived sids k tr => exact handleIncomingTrack_inv c sids k tr h
  | ended sid k => exact handleTrackEnded_inv c sid k h

theorem applyTrackEvents_inv (evs : List TrackEvent) :
    ∀ c : ClientState, (∀ p ∈ c.remoteStreams, p.2.hasTrack = true) →
      ∀ p ∈ (applyTrackEvents evs c).remoteStreams, p.2.hasTrack = true := by
  induction evs with
  | nil => exact fun c h => h
  | cons e evs ih =>
    intro c h
    exact ih (applyTrackEvent c e) (applyTrackEvent_inv c e h)

/-- C5: over every sequence of track-arrived/track-ended events
delivered to a fresh connection, a stream entry exists in the registry
only if it still holds at least one track (a stream whose last track
ends is pruned); and conversely, the moment a track arrives for a
stream id, an entry for that id exists in the registry and holds a
track. -/
theorem trackRegistry_live_iff :
    (∀ (evs : List TrackEvent) (now : Nat) (p : String × MeetMediaStream),
        p ∈ (applyTrackEvents evs (initialClient now)).remoteStreams →
        p.2.hasTrack = true) ∧
    (∀ (c : ClientState) (sid : String) (rest : List String) (k : TrackKind)
        (tr : Track),
        alContains (handleIncomingTrack c (sid :: rest) k tr).remoteStreams
          sid = true) := by
  constructor
  · intro evs now p hp
    exact applyTrackEvents_inv evs (initialClient now) (by intro q hq; cases hq)
      p hp
  · intro c sid rest k tr
    rw [handleIncomingTrack_remoteStreams]
    exact alContains_alSet_self _ _ _

/-- Witness for C5: after a single live audio-track arrival for stream
`"s1"`, the registry entry produced indeed holds a track. -/
theorem trackRegistry_live_iff_witness :
    ({ audioTrack := some ⟨1, "live"⟩, videoTrack := none } :
      MeetMediaStream).hasTrack = true :=
  trackRegistry_live_iff.1 [.arrived ["s1"] .audio ⟨1, "live"⟩] 0
    ("s1", { audioTrack := some ⟨1, "live"⟩, videoTrack := none }) (by decide)

/-! ## Meeting-code validation (C4) -/

theorem length_eq_four {α : Type} {l : List α} :
    l.length = 4 ↔ ∃ a b c d, l = [a, b, c, d] := by
  constructor
  · intro h
    rcases l with _ | ⟨a, _ | ⟨b, _ | ⟨c, _ | ⟨d, _ | ⟨e, l⟩⟩⟩⟩⟩ <;> simp_all
  · rintro ⟨a, b, c, d, rfl⟩
    rfl

/-- C4 (corrected): the code's validator — compiled from the
case-insensitive regex — accepts the meeting code if and only if it is
three groups of lengths 3, 4, 3 of letters of either case or digits,
separated by hyphens; and (second conjunct) the orchestrator rejects an
invalid code with a 400 before consulting any collaborator, leaving the
table untouched.  The spec's lowercase-only reading is refuted by
`meetingCode_uppercase_accepted`. -/
theorem isValidMeetingCode_iff_shape :
    (∀ s : List Char,
        isValidMeetingCode s = true ↔ meetingCodeShape isAlnumCI s) ∧
    (∀ (env : RouteEnv) (now : Nat) (code : String) (t : RouteTable),
        isValidMeetingCode code.data = false →
        routeStartPOST env now (some code) t =
          (.badRequest "Invalid meeting code format", t)) := by
  constructor
  · intro s
    constructor
    · intro h
      rcases s with _ | ⟨c0, _ | ⟨c1, _ | ⟨c2, _ | ⟨d0, _ | ⟨c3, _ | ⟨c4,
        _ | ⟨c5, _ | ⟨c6, _ | ⟨d1, _ | ⟨c7, _ | ⟨c8, _ | ⟨c9,
        _ | ⟨x, s⟩⟩⟩⟩⟩⟩⟩⟩⟩⟩⟩⟩⟩ <;> simp [isValidMeetingCode] at h
      refine ⟨[c0, c1, c2], [c3, c4, c5, c6], [c7, c8, c9],
        rfl, rfl, rfl, ?_, ?_, ?_, ?_⟩ <;> simp_all
    · rintro ⟨g1, g2, g3, hl1, hl2, hl3, ha1, ha2, ha3, rfl⟩
      obtain ⟨a0, a1, a2, rfl⟩ := List.length_eq_three.mp hl1
      obtain ⟨b0, b1, b2, b3, rfl⟩ := length_eq_four.mp hl2
      obtain ⟨e0, e1, e2, rfl⟩ := List.length_eq_three.mp hl3
      simp_all [isValidMeetingCode]
  · intro env now code t h
    unfold routeStartPOST
    simp [h]

/-- C4 counterexample: the claim says validation passes only for
lowercase groups, but the regex carries the `i` flag — the all-uppercase
code `ABC-DEFG-HIJ` passes the code's validator while failing the
spec-worded lowercase check. -/
theorem meetingCode_uppercase_accepted :
    isValidMeetingCode "ABC-DEFG-HIJ".data = true ∧
      specLowercaseMeetingCode "ABC-DEFG-HIJ".data = false := by
  constructor <;> decide

/-- Witness for C4: instantiates both conjuncts — the canonical
lowercase example code satisfies the shape, and an invalidly shaped
request is rejected with the table left unchanged. -/
theorem isValidMeetingCode_iff_shape_witness :
    meetingCodeShape isAlnumCI "abc-defg-hij".data ∧
      routeStartPOST ⟨none, none, .error "", .error ""⟩ 0 (some "bad") [] =
        (.badRequest "Invalid meeting code format", []) :=
  ⟨(isValidMeetingCode_iff_shape.1 "abc-defg-hij".data).mp (by decide),
   isValidMeetingCode_iff_shape.2 ⟨none, none, .error "", .error ""⟩ 0 "bad" []
     (by decide)⟩

/-! ## Session-id generation (C9) -/

theorem noUnderscore_split :
    ∀ (t1 t2 r1 r2 : List Char), '_' ∉ t1 → '_' ∉ t2 →
      t1 ++ '_' :: r1 = t2 ++ '_' :: r2 → t1 = t2 ∧ r1 = r2 := by
  intro t1
  induction t1 with
  | nil =>
    intro t2 r1 r2 h1 h2 h
    cases t2 with
    | nil => simpa using h
    | cons b t2 =>
      simp at h
      exact absurd (List.mem_cons.mpr (Or.inl h.1)) h2
  | cons a t1 ih =>
    intro t2 r1 r2 h1 h2 h
    cases t2 with
    | nil =>
      simp at h
      exact absurd (List.mem_cons.mpr (Or.inl h.1.symm)) h1
    | cons b t2 =>
      simp only [List.cons_append, List.cons.injEq] at h
      obtain ⟨rfl, h'⟩ := h
      have h1' : '_' ∉ t1 := fun hm => h1 (List.mem_cons.mpr (Or.inr hm))
      have h2' : '_' ∉ t2 := fun hm => h2 (List.mem_cons.mpr (Or.inr hm))
      obtain ⟨ht, hr⟩ := ih t2 r1 r2 h1' h2' h'
      exact ⟨by rw [ht], hr⟩

/-- C9 (amended): the generated id is `session_` + clock + `_` + random
suffix, and since neither interpolated part can contain an underscore
(decimal digits and base-36 characters only), two invocations receive
distinct ids whenever their observed clock string or their random
suffix differ.  Uniqueness is **not** guaranteed when both coincide —
see `sessionId_collision`. -/
theorem generateSessionId_injective :
    ∀ t1 r1 t2 r2 : List Char, '_' ∉ t1 → '_' ∉ t2 →
      generateSessionId t1 r1 = generateSessionId t2 r2 →
      t1 = t2 ∧ r1 = r2 := by
  intro t1 r1 t2 r2 h1 h2 h
  unfold generateSessionId at h
  rw [List.append_assoc, List.append_assoc] at h
  exact noUnderscore_split t1 t2 r1 r2 h1 h2 (List.append_cancel_left h)

/-- C9 counterexample: two distinct invocations (indices 0 and 1) that
observe the same clock value and the same `Math.random()` suffix are
assigned the very same session id, so distinctness of invocations alone
does not yield distinct ids. -/
theorem sessionId_collision :
    sessionIdAt (fun _ => ("1700000000000".data, "k3j9x2a1b".data)) 0 =
      sessionIdAt (fun _ => ("1700000000000".data, "k3j9x2a1b".data)) 1 ∧
      (0 : Nat) ≠ 1 :=
  ⟨rfl, by decide⟩

/-- Witness for C9: applies the injectivity theorem at a concrete
timestamp/suffix pair. -/
theorem generateSessionId_injective_witness :
    "100".data = "100".data ∧ "abc".data = "abc".data :=
  generateSessionId_injective "100".data "abc".data "100".data "abc".data
    (by decide) (by decide) rfl

/-! ## Duplicate-session rejection (C2) -/

/-- C2: a start request for a meeting code that already has a live entry
is rejected with the duplicate (409) result and leaves the table
untouched; and across every branch of the handler the table keeps at
most one entry per meeting code (key lists stay duplicate-free). -/
theorem duplicate_start_rejected :
    (∀ (env : RouteEnv) (now : Nat) (code : String) (t : RouteTable),
        isValidMeetingCode code.data = true → alContains t code = true →
        routeStartPOST env now (some code) t = (.conflict, t)) ∧
    (∀ (env : RouteEnv) (now : Nat) (mc : Option String) (t : RouteTable),
        (t.map Prod.fst).Nodup →
        ((routeStartPOST env now mc t).2.map Prod.fst).Nodup) := by
  constructor
  · intro env now code t hv hc
    unfold routeStartPOST
    simp [hv, hc]
  · intro env now mc t hn
    unfold routeStartPOST
    cases mc with
    | none => exact hn
    | some code =>
      dsimp only
      by_cases hv : isValidMeetingCode code.data = false
      · simp only [hv, if_pos]
        exact hn
      · rw [if_neg hv]
        by_cases hc : alContains t code = true
        · simp only [hc, if_pos]
          exact hn
        · have hcf : alContains t code = false := by simpa using hc
          rw [if_neg hc]
          have hkeys : ∀ v1 v2 : RouteSession,
              ((alSet (alSet t code v1) code v2).map Prod.fst).Nodup := by
            intro v1 v2
            rw [alSet_keys_of_contains v2 (alContains_alSet_self t code v1),
              alSet_keys_of_not_contains v1 hcf]
            refine List.Nodup.append hn (List.nodup_singleton code) ?_
            intro a hat hac
            rcases List.mem_singleton.mp hac with rfl
            rcases List.mem_map.mp hat with ⟨p, hp, hpc⟩
            have hcc : alContains t a = true :=
              List.any_eq_true.mpr ⟨p, hp, by simp [hpc]⟩
            rw [hcf] at hcc
            cases hcc
          cases env.accessToken with
          | none => exact hn
          | some tok =>
            dsimp only
            cases env.cloudProjectNumber with
            | none => exact hn
            | some proj =>
              dsimp only
              cases env.spaceLookup with
              | error e => exact hn
              | ok spaceId =>
                dsimp only
                cases env.startResult with
                | error e => exact hkeys _ _
                | ok sid => exact hkeys _ _

/-- Witness for C2: a second start for `abc-defg-hij` while an entry for
it is live yields the conflict result and the unchanged table. -/
theorem duplicate_start_rejected_witness :
    routeStartPOST ⟨none, none, .error "", .error ""⟩ 7 (some "abc-defg-hij")
      [("abc-defg-hij", ⟨"sid1", "abc-defg-hij", "sp", 0, "recording"⟩)] =
      (.conflict,
        [("abc-defg-hij", ⟨"sid1", "abc-defg-hij", "sp", 0, "recording"⟩)]) :=
  duplicate_start_rejected.1 ⟨none, none, .error "", .error ""⟩ 7
    "abc-defg-hij"
    [("abc-defg-hij", ⟨"sid1", "abc-defg-hij", "sp", 0, "recording"⟩)]
    (by decide) (by decide)

/-! ## Stop-recording artifact (C3) -/

/-- C3: for a session in the live table that reached the recording
state (active capture, live recorder), `stopRecording` succeeds with a
finalized record whose `endTime` is stamped `now` and is at least
`startTime` (under clock monotonicity, `startTime ≤ now`), and with an
artifact whose byte count is exactly the sum of the sizes of the chunks
it concatenates — the collected session chunks when any exist,
otherwise the client's accumulated recorder chunks (including the final
flush). -/
theorem stopRecording_artifact_correct :
    ∀ (m : ManagerState) (sessionId : String) (s : RecordingSession)
      (r : RecorderState) (now : Nat),
      alGet m sessionId = some s →
      s.status = "recording" →
      s.mediaClient.isRecording = true →
      s.mediaClient.mediaRecorder = some r →
      s.startTime ≤ now →
      ∃ (b : Blob) (m2 : ManagerState) (fin : RecordingSession),
        managerStopRecording now sessionId m = (.ok b, m2, some fin) ∧
        fin.endTime = some now ∧
        fin.startTime ≤ now ∧
        (s.chunks = [] →
          b.size =
            ((stopFlushChunks s.mediaClient.recordingData r).map Blob.size).sum) ∧
        (s.chunks ≠ [] →
          b.size = (s.chunks.map (fun ch => ch.data.size)).sum) := by
  intro m sid s r now hget hstat hrec hmr hle
  have step : clientStopRecording now s.mediaClient =
      .ok (Blob.ofParts (stopFlushChunks s.mediaClient.recordingData r)
             r.mimeType,
        { s.mediaClient with
          isRecording := false
          mediaRecorder := some { r with rstate := "inactive", pending := [] }
          recordingData :=
            { s.mediaClient.recordingData with
              combinedChunks := stopFlushChunks s.mediaClient.recordingData r
              endTime := some now } }) := by
    unfold clientStopRecording
    simp [hrec, hmr]
  by_cases hch : s.chunks.isEmpty
  · simp only [managerStopRecording, hget, step, combineRecordingChunks, hch,
      if_pos]
    refine ⟨_, _, _, rfl, rfl, hle, fun _ => Blob.size_ofParts _ _,
      fun hne => absurd (List.isEmpty_iff.mp hch) hne⟩
  · simp only [managerStopRecording, hget, step, combineRecordingChunks, hch,
      if_neg, Bool.false_eq_true, if_false]
    refine ⟨_, _, _, rfl, rfl, hle,
      fun he => absurd (List.isEmpty_iff.mpr he) (by simp [hch]), fun _ => ?_⟩
    rw [Blob.size_ofParts, List.map_map]
    exact congrArg List.sum (List.map_congr_left fun _ _ => rfl)

/-- A client state as left by a successful pipeline start: connected,
capturing, with one accumulated chunk and pending recorder data. -/
def sampleClient : ClientState :=
  { initialClient 3 with
    peerConnection := some ⟨"connected"⟩
    isConnected := true
    isRecording := true
    mediaRecorder := some ⟨"recording", [7, 8], "video/webm"⟩
    recordingData := ⟨[], [], [⟨[1, 2, 3], "video/webm"⟩], 3, none⟩ }

/-- A live session record in the recording state owning `sampleClient`. -/
def sampleSession : RecordingSession :=
  { sid := "sess1"
    meetingCode := "abc-defg-hij"
    startTime := 3
    endTime := none
    chunks := []
    mediaClient := sampleClient
    status := "recording"
    totalSize := 0
    participants := []
    chunkTimer := true
    participantTimer := true }

/-- Witness for C3: stopping `sampleSession` at time 9 succeeds with a
stamped record and a size-correct artifact. -/
theorem stopRecording_artifact_correct_witness :
    ∃ (b : Blob) (m2 : ManagerState) (fin : RecordingSession),
      managerStopRecording 9 "sess1" [("sess1", sampleSession)] =
        (.ok b, m2, some fin) ∧
      fin.endTime = some 9 ∧
      fin.startTime ≤ 9 ∧
      (sampleSession.chunks = [] →
        b.size =
          ((stopFlushChunks sampleSession.mediaClient.recordingData
              ⟨"recording", [7, 8], "video/webm"⟩).map Blob.size).sum) ∧
      (sampleSession.chunks ≠ [] →
        b.size = (sampleSession.chunks.map (fun ch => ch.data.size)).sum) :=
  stopRecording_artifact_correct [("sess1", sampleSession)] "sess1"
    sampleSession ⟨"recording", [7, 8], "video/webm"⟩ 9
    (by decide) rfl rfl rfl (by decide)

/-! ## Start-failure teardown (C1) -/

/-- C1 (code bug): when `startRecording` fails after the media client
has been built and connected — here, `waitForMediaStreams` timing out
with the transport still `"connecting"` — the error propagates with the
constructed client still connected and its peer connection still open:
`cleanupSession(sessionId)` finds nothing to clean because the session
record is only inserted into `activeSessions` after every fallible
step, so it returns before disconnecting anything.  The record-removal
half of the claim holds vacuously (the table is returned unchanged),
but the connection is not torn down, contradicting the claimed
"connection disconnected before the error propagates". -/
theorem startRecording_leaks_connection :
    ∀ (m : ManagerState) (now : Nat) (code sessionId : String)
      (reg : Registry) (sup : String → Bool),
      alGet m sessionId = none →
      ∃ c : ClientState,
        managerStartRecording
          ⟨.ok "space1", some "conf1", none, none, "connecting", reg, sup⟩
          now code sessionId m =
          (.error "Timeout waiting for media streams", m, some c) ∧
        c.isConnected = true ∧ c.peerConnection.isSome = true := by
  intro m now code sid reg sup hget
  refine ⟨{ initialClient now with
            peerConnection := some ⟨"connecting"⟩
            dataChannel := some ⟨"connecting"⟩
            isConnected := true }, ?_, rfl, rfl⟩
  unfold managerStartRecording
  dsimp only
  rw [if_neg (by decide)]
  unfold cleanupSession
  rw [hget]

/-- Witness for C1: an empty session table, a fresh session id, and a
transport stuck in `"connecting"`. -/
theorem startRecording_leaks_connection_witness :
    ∃ c : ClientState,
      managerStartRecording
        ⟨.ok "space1", some "conf1", none, none, "connecting", [],
         fun _ => true⟩ 4 "abc-defg-hij" "sess9" [] =
        (.error "Timeout waiting for media streams", [], some c) ∧
      c.isConnected = true ∧ c.peerConnection.isSome = true :=
  startRecording_leaks_connection [] 4 "abc-defg-hij" "sess9" []
    (fun _ => true) rfl

end MeetingBot
